import Mathlib

/-!
Verification of the connection-resilience layer of the MEL1 client.

The repository contains three near-duplicate implementations of the same
WebSocket layer:
  * `src/websocket.js`  (player client; definitions suffixed `WS`),
  * `src/unnamed/part_000` (second player client; definitions suffixed `P0`),
  * `src/admin.js`      (admin client; definitions prefixed `admin`).

Each JavaScript function relevant to the claims is embedded below as an
executable Lean definition; machine state (socket, timers, queue, counters)
is passed explicitly.  Time is a `Nat` millisecond clock; JS `now - t`
on numbers agrees with truncated `Nat` subtraction in every guard used here
(a negative JS difference and a truncated-to-zero Nat difference fail the
same `> bound` tests).
-/

/-- A queued outbound message, as built by `sendMessage` in
`src/websocket.js` (`{...message, _timestamp: Date.now(), _retryCount: 0}`)
and in `src/unnamed/part_000` (`message._timestamp = Date.now();
message._retryCount = 0`).  The application fields are abstracted to the
mandatory `type` tag. -/
structure QMsg where
  mtype : String
  timestamp : Nat
  retryCount : Nat
deriving Repr, DecidableEq

/-- `maxAge` from `processMessageQueue` in `src/websocket.js`:
`5 * 60 * 1000` ms. -/
def MAX_AGE : Nat := 5 * 60 * 1000

/-- `MAX_RECONNECT_ATTEMPTS` (5) — identical in all three files. -/
def MAX_RECONNECT_ATTEMPTS : Nat := 5

/-- `RECONNECT_DELAY` (3000 ms) from `src/websocket.js`. -/
def RECONNECT_DELAY : Nat := 3000

/-- `PING_INTERVAL` (30000 ms) from `src/websocket.js`. -/
def PING_INTERVAL : Nat := 30000

/-- One iteration of the `for (let i = length-1; i >= 0; i--)` body of
`processMessageQueue` in `src/websocket.js` (lines 313-339), acting on the
element at index `i`: an age-expired message is spliced out without a send;
otherwise a send is attempted (`sendMessage(message, false)`); success
splices it out; failure increments `_retryCount` and splices it out only
when the count exceeds 3.  Returns the element's replacement (if kept) and
the send attempts made. -/
def wsDrainStep (sendOk : QMsg → Bool) (now : Nat) (m : QMsg) :
    Option QMsg × List QMsg :=
  if now - m.timestamp > MAX_AGE then (none, [])
  else if sendOk m then (none, [m])
  else
    let m2 : QMsg := ⟨m.mtype, m.timestamp, m.retryCount + 1⟩
    if m2.retryCount > 3 then (none, [m]) else (some m2, [m])

/-- Helper for `processMessageQueueWS`: runs `wsDrainStep` over a list whose
order is the iteration order of the loop (last queue element first),
concatenating kept elements and send traces. -/
def wsDrainRev (sendOk : QMsg → Bool) (now : Nat) :
    List QMsg → List QMsg × List QMsg
  | [] => ([], [])
  | m :: rest =>
    let s := wsDrainStep sendOk now m
    let r := wsDrainRev sendOk now rest
    (s.1.toList ++ r.1, s.2 ++ r.2)

/-- `processMessageQueue` from `src/websocket.js` (lines 309-340).  The JS
loop walks the array from the highest index (the newest message) down to
index 0, splicing elements out in place; since a `splice(i, 1)` never moves
elements at indices below `i`, the loop visits each original element exactly
once, newest first.  Result: (remaining queue in original order, the send
attempts in the order the transport saw them). -/
def processMessageQueueWS (sendOk : QMsg → Bool) (now : Nat)
    (queue : List QMsg) : List QMsg × List QMsg :=
  let r := wsDrainRev sendOk now queue.reverse
  (r.1.reverse, r.2)

/-- `processMessageQueue` from `src/unnamed/part_000` (lines 513-539):
`while` the queue is nonempty, `shift()` the head; a head with
`_retryCount > 3` or age over 300000 ms is discarded and the loop
continues; otherwise a send is attempted — success continues with the
rest, failure increments `_retryCount`, `unshift`s the message back and
`break`s the pass.  Result: (remaining queue, send attempts in order). -/
def processMessageQueueP0 (sendOk : QMsg → Bool) (now : Nat) :
    List QMsg → List QMsg × List QMsg
  | [] => ([], [])
  | m :: rest =>
    if m.retryCount > 3 then processMessageQueueP0 sendOk now rest
    else if now - m.timestamp > 300000 then processMessageQueueP0 sendOk now rest
    else if sendOk m then
      let r := processMessageQueueP0 sendOk now rest
      (r.1, m :: r.2)
    else (⟨m.mtype, m.timestamp, m.retryCount + 1⟩ :: rest, [m])

/-- Delay computed by `attemptReconnection` in `src/websocket.js`
(line 208): `RECONNECT_DELAY * Math.pow(2, reconnectAttempts - 1)` where
`reconnectAttempts` has already been incremented, so the n-th attempt
(n ≥ 1) waits `3000 · 2^(n-1)` ms — with no cap. -/
def wsReconnectDelay (n : Nat) : Nat := RECONNECT_DELAY * 2 ^ (n - 1)

/-- Delay computed by `attemptReconnect` in `src/unnamed/part_000`
(line 789): `Math.min(1000 * Math.pow(2, reconnectAttempts), 30000)` where
`reconnectAttempts` has already been incremented to n. -/
def p0ReconnectDelay (n : Nat) : Nat := min (1000 * 2 ^ n) 30000

/-- Fixed message `{type: "a"}` enqueued first (at time 0). -/
def msgA : QMsg := ⟨"a", 0, 0⟩

/-- Fixed message `{type: "b"}` enqueued second (also at time 0). -/
def msgB : QMsg := ⟨"b", 0, 0⟩

/-- Claim C1, as stated, is false for `src/websocket.js`: with two fresh
messages enqueued in the order A then B and a transport that accepts every
send, the drain pass of `processMessageQueue` hands the transport B first
and A second — the reverse of enqueue order, not FIFO. -/
theorem C1_counterexample :
    (processMessageQueueWS (fun _ => true) 0 [msgA, msgB]).2 = [msgB, msgA] ∧
    (processMessageQueueWS (fun _ => true) 0 [msgA, msgB]).2 ≠ [msgA, msgB] := by
  decide

/-- Helper: when every message in the iteration list is fresh and every send
succeeds, the `src/websocket.js` drain loop removes everything and attempts
each message once, in iteration order. -/
theorem wsDrainRev_all_ok (sendOk : QMsg → Bool) (now : Nat) (l : List QMsg)
    (h : ∀ m ∈ l, now - m.timestamp ≤ MAX_AGE ∧ sendOk m = true) :
    wsDrainRev sendOk now l = ([], l) := by
  induction l with
  | nil => rfl
  | cons m rest ih =>
    have hm := h m (List.mem_cons_self m rest)
    have hrest : ∀ x ∈ rest, now - x.timestamp ≤ MAX_AGE ∧ sendOk x = true :=
      fun x hx => h x (List.mem_cons_of_mem m hx)
    simp [wsDrainRev, wsDrainStep, Nat.not_lt.mpr hm.1, hm.2, ih hrest]

/-- Helper: the send attempts made by the `src/unnamed/part_000` drain form
a sublist of the queue — FIFO order is preserved. -/
theorem processMessageQueueP0_trace_sublist (sendOk : QMsg → Bool) (now : Nat)
    (q : List QMsg) : (processMessageQueueP0 sendOk now q).2.Sublist q := by
  induction q with
  | nil => simp [processMessageQueueP0]
  | cons m rest ih =>
    by_cases h1 : m.retryCount > 3
    · simpa [processMessageQueueP0, h1] using ih.cons m
    · by_cases h2 : now - m.timestamp > 300000
      · simpa [processMessageQueueP0, h1, h2] using ih.cons m
      · by_cases h3 : sendOk m
        · simpa [processMessageQueueP0, h1, h2, h3] using ih.cons₂ m
        · simp [processMessageQueueP0, h1, h2, h3]

/-- Helper: when every queued message is within its retry and age budget and
every send succeeds, the `src/unnamed/part_000` drain empties the queue and
attempts the messages in exact enqueue order. -/
theorem processMessageQueueP0_all_ok (sendOk : QMsg → Bool) (now : Nat)
    (q : List QMsg)
    (h : ∀ m ∈ q, m.retryCount ≤ 3 ∧ now - m.timestamp ≤ 300000 ∧ sendOk m = true) :
    processMessageQueueP0 sendOk now q = ([], q) := by
  induction q with
  | nil => rfl
  | cons m rest ih =>
    have hm := h m (List.mem_cons_self m rest)
    have hrest : ∀ x ∈ rest,
        x.retryCount ≤ 3 ∧ now - x.timestamp ≤ 300000 ∧ sendOk x = true :=
      fun x hx => h x (List.mem_cons_of_mem m hx)
    simp [processMessageQueueP0, Nat.not_lt.mpr hm.1, Nat.not_lt.mpr hm.2.1,
      hm.2.2, ih hrest]

/-- Claim C1 amended: the head-first drain with the stated discard/stop rules
is the `src/unnamed/part_000` implementation — its send attempts are always a
sublist of the queue (FIFO, never reordered past a still-retryable message),
and when every message is within budget and every send succeeds it sends the
whole queue in enqueue order.  The `src/websocket.js` implementation instead
iterates from the newest message to the oldest without stopping on failure,
so when every send succeeds the transport observes the queue in reverse
order. -/
theorem C1_amended (sendOk : QMsg → Bool) (now : Nat) (q : List QMsg) :
    (processMessageQueueP0 sendOk now q).2.Sublist q ∧
    ((∀ m ∈ q, m.retryCount ≤ 3 ∧ now - m.timestamp ≤ 300000 ∧ sendOk m = true) →
      processMessageQueueP0 sendOk now q = ([], q)) ∧
    ((∀ m ∈ q, now - m.timestamp ≤ MAX_AGE ∧ sendOk m = true) →
      (processMessageQueueWS sendOk now q).2 = q.reverse) := by
  refine ⟨processMessageQueueP0_trace_sublist sendOk now q,
    fun h => processMessageQueueP0_all_ok sendOk now q h, ?_⟩
  intro h
  have hrev : ∀ m ∈ q.reverse, now - m.timestamp ≤ MAX_AGE ∧ sendOk m = true :=
    fun m hm => h m (List.mem_reverse.mp hm)
  simp [processMessageQueueWS, wsDrainRev_all_ok sendOk now q.reverse hrev]

/-- Witness for `C1_amended` at the concrete queue `[msgA, msgB]` with an
always-succeeding transport. -/
theorem C1_witness :
    (processMessageQueueP0 (fun _ => true) 0 [msgA, msgB]).2.Sublist [msgA, msgB] ∧
    processMessageQueueP0 (fun _ => true) 0 [msgA, msgB] = ([], [msgA, msgB]) ∧
    (processMessageQueueWS (fun _ => true) 0 [msgA, msgB]).2 = [msgA, msgB].reverse := by
  have h := C1_amended (fun _ => true) 0 [msgA, msgB]
  exact ⟨h.1, h.2.1 (by decide), h.2.2 (by decide)⟩

/-- Claim C2, as stated, is false for `src/websocket.js`: the delay before
the 5th reconnection attempt is `3000 · 2^4 = 48000` ms, which is neither
`min(BASE_DELAY · 2^5, 30000)` nor within the 30-second cap. -/
theorem C2_counterexample :
    wsReconnectDelay 5 = 48000 ∧
    wsReconnectDelay 5 ≠ min (RECONNECT_DELAY * 2 ^ 5) 30000 ∧
    ¬ wsReconnectDelay 5 ≤ 30000 := by
  decide

/-- Claim C2 amended: the capped formula `min(BASE_DELAY · 2^n, 30000)` (with
BASE_DELAY 1000 ms) is the `src/unnamed/part_000` implementation, whose
delays are non-decreasing and never exceed 30 seconds; `src/websocket.js`
schedules `3000 · 2^(n-1)` ms with no cap — still non-decreasing, but
exceeding 30 seconds from the 5th attempt on. -/
theorem C2_amended (n : Nat) :
    p0ReconnectDelay n = min (1000 * 2 ^ n) 30000 ∧
    p0ReconnectDelay n ≤ p0ReconnectDelay (n + 1) ∧
    p0ReconnectDelay n ≤ 30000 ∧
    wsReconnectDelay n ≤ wsReconnectDelay (n + 1) := by
  refine ⟨rfl, ?_, min_le_right _ _, ?_⟩
  · exact min_le_min
      (Nat.mul_le_mul (Nat.le_refl 1000)
        (Nat.pow_le_pow_right (by decide) (Nat.le_succ n)))
      (Nat.le_refl 30000)
  · exact Nat.mul_le_mul (Nat.le_refl RECONNECT_DELAY)
      (Nat.pow_le_pow_right (by decide) (Nat.sub_le_sub_right (Nat.le_succ n) 1))

/-- `attemptReconnect` from `src/admin.js` (lines 156-165).  `src/admin.js`
declares `const reconnectAttempts = 0` (line 6) and never assigns it, so the
guard compares the constant 0 against `MAX_RECONNECT_ATTEMPTS` and the
counter is returned unchanged.  Result: (whether a reconnect is scheduled,
the counter afterwards). -/
def adminAttemptReconnect (attempts : Nat) : Bool × Nat :=
  if attempts ≥ MAX_RECONNECT_ATTEMPTS then (false, attempts)
  else (true, attempts)

/-- `handleWebSocketClose` from `src/admin.js` (lines 139-148): any close
code other than 1000 calls `attemptReconnect`; code 1000 does nothing.
Result: (whether a reconnect is scheduled, the counter afterwards). -/
def adminHandleClose (code : Nat) (attempts : Nat) : Bool × Nat :=
  if code ≠ 1000 then adminAttemptReconnect attempts else (false, attempts)

/-- Value of `src/admin.js`'s `reconnectAttempts` after `k` consecutive
unplanned closes with close code `code` (each close runs
`handleWebSocketClose`). -/
def adminAttemptsAfter (code : Nat) : Nat → Nat
  | 0 => 0
  | k + 1 => (adminHandleClose code (adminAttemptsAfter code k)).2

/-- `reconnect` from `src/websocket.js` (lines 795-805): when not connected
it resets `reconnectAttempts` to 0 before calling `initWebSocket`.  Result:
the counter after the call. -/
def wsReconnect (connected : Bool) (attempts : Nat) : Nat :=
  if connected then attempts else 0

/-- Claim C3 names the right behavior, but `src/admin.js` violates it: its
`reconnectAttempts` is `const 0` and no code path increments it, so after 5
consecutive failed reconnection attempts the counter still reads 0 and the
next unplanned close (say code 1006) schedules a 6th automatic attempt —
the `>= MAX_RECONNECT_ATTEMPTS` guard is unreachable and no `GivenUp` state
is ever entered.  (`reconnect()` in `src/websocket.js` does reset the
counter to 0, as the claim says.) -/
theorem C3_bug :
    adminAttemptsAfter 1006 5 = 0 ∧
    (adminHandleClose 1006 (adminAttemptsAfter 1006 5)).1 = true ∧
    (∀ attempts : Nat, (adminHandleClose 1006 attempts).2 = attempts) ∧
    (∀ attempts : Nat, wsReconnect false attempts = 0) := by
  refine ⟨rfl, rfl, ?_, fun _ => rfl⟩
  intro attempts
  by_cases h : attempts ≥ MAX_RECONNECT_ATTEMPTS <;>
    simp [adminHandleClose, adminAttemptReconnect, h]

/-- Heartbeat state kept by `src/websocket.js`: the module-level `lastPong`
(line 11) and `connectionStatus.pingLatency` (line 24). -/
structure HeartbeatState where
  lastPong : Nat
  pingLatency : Nat
deriving Repr, DecidableEq

/-- Result of one tick of the `setInterval` callback installed by
`startPingInterval` in `src/websocket.js` (lines 226-242). -/
structure PingTickResult where
  lastPong : Nat
  sentPing : Bool
  closeCode : Option Nat
deriving Repr, DecidableEq

/-- One tick of the heartbeat callback from `src/websocket.js` (lines
226-242): if the socket exists and is OPEN, set `lastPong := now` and send a
ping; then, if `now - lastPong > PING_INTERVAL * 2`, close the socket (when
it exists) with code 1001 and reason "No pong received". -/
def pingTickWS (wsExists wsOpen : Bool) (now lastPong : Nat) : PingTickResult :=
  let lp := if wsExists && wsOpen then now else lastPong
  let sent := wsExists && wsOpen
  if now - lp > PING_INTERVAL * 2 then
    { lastPong := lp, sentPing := sent,
      closeCode := if wsExists then some 1001 else none }
  else
    { lastPong := lp, sentPing := sent, closeCode := none }

/-- `handlePong` from `src/websocket.js` (lines 422-428): records
`pingLatency = now - message.timestamp` — and touches nothing else; in
particular it does not update `lastPong`. -/
def handlePongWS (now msgTimestamp : Nat) (st : HeartbeatState) : HeartbeatState :=
  { st with pingLatency := now - msgTimestamp }

/-- Reconnection guard of `ws.onclose` in `src/websocket.js` (line 162):
`event.code !== 1000 && event.code !== 1001 && reconnectAttempts <
MAX_RECONNECT_ATTEMPTS`. -/
def shouldReconnectWS (code attempts : Nat) : Bool :=
  (code != 1000) && (code != 1001) && decide (attempts < MAX_RECONNECT_ATTEMPTS)

/-- Reconnection guard of `socket.onclose` in `src/unnamed/part_000`
(line 111): `event.code !== 1000 && reconnectAttempts <
MAX_RECONNECT_ATTEMPTS`. -/
def shouldReconnectP0 (code attempts : Nat) : Bool :=
  (code != 1000) && decide (attempts < MAX_RECONNECT_ATTEMPTS)

/-- Claim C4 names the intended liveness rule, but `src/websocket.js`
violates it three ways: (1) while the socket is Open every tick first
refreshes `lastPong` to `now` as it sends the ping, so the
`now - lastPong > 2 × PING_INTERVAL` branch can never close an Open
socket no matter how long pongs have been absent; (2) `handlePong` never
records the pong arrival time (`lastPong` is untouched), contradicting the
code's own comment "Check if we haven't received a pong in 2x ping
interval"; (3) when the close branch does run it uses code 1001, which
`ws.onclose` excludes from reconnection, so a liveness close is not
treated as unplanned. -/
theorem C4_bug :
    (∀ now lastPong : Nat, (pingTickWS true true now lastPong).closeCode = none) ∧
    (∀ (now ts : Nat) (st : HeartbeatState),
      (handlePongWS now ts st).lastPong = st.lastPong) ∧
    shouldReconnectWS 1001 0 = false := by
  refine ⟨?_, fun _ _ _ => rfl, rfl⟩
  intro now lastPong
  simp [pingTickWS, PING_INTERVAL]

/-- Claim C5, as stated, is false for `src/websocket.js`: a closure with
code 1001 and `reconnectAttempts = 0` (below the ceiling of 5) does not
schedule a reconnection attempt — `ws.onclose` excludes 1001 as well as
1000. -/
theorem C5_counterexample :
    shouldReconnectWS 1001 0 = false ∧ 0 < MAX_RECONNECT_ATTEMPTS := by
  decide

/-- Claim C5 amended: with the attempt counter below the ceiling,
`src/websocket.js` suppresses automatic reconnection exactly for close codes
1000 and 1001 and reconnects on every other code, while
`src/unnamed/part_000` suppresses exactly code 1000 (there 1001 does trigger
reconnection, as the spec prescribes). -/
theorem C5_amended (code attempts : Nat) (h : attempts < MAX_RECONNECT_ATTEMPTS) :
    (shouldReconnectWS code attempts = true ↔ (code ≠ 1000 ∧ code ≠ 1001)) ∧
    (shouldReconnectP0 code attempts = true ↔ code ≠ 1000) := by
  simp [shouldReconnectWS, shouldReconnectP0, h]

/-- Witness for `C5_amended` at close code 1006 with 0 prior attempts. -/
theorem C5_witness :
    (shouldReconnectWS 1006 0 = true ↔ ((1006 : Nat) ≠ 1000 ∧ (1006 : Nat) ≠ 1001)) ∧
    (shouldReconnectP0 1006 0 = true ↔ (1006 : Nat) ≠ 1000) :=
  C5_amended 1006 0 (by decide)

/-- Input to `sendMessage`, abstracted to the properties the validation and
serialization paths test: `isObject` (`message && typeof message ===
'object'`), `hasType` (`message.type` truthy), its `type` tag, and whether
`JSON.stringify`/`ws.send` succeed on it (`serializable`). -/
structure MsgInput where
  isObject : Bool
  hasType : Bool
  mtype : String
  serializable : Bool
deriving Repr, DecidableEq

/-- The module-level state read and written by `sendMessage` in
`src/websocket.js`: the socket open flag (`ws && ws.readyState === OPEN`),
`connectionStatus.connected`, `reconnectAttempts` and `messageQueue`. -/
structure SendState where
  wsOpen : Bool
  connected : Bool
  reconnectAttempts : Nat
  queue : List QMsg
deriving Repr, DecidableEq

/-- What a call to `sendMessage` produces: its boolean return value, the
queue afterwards, whether `attemptReconnection()` was invoked, and whether
the message was handed to the transport now. -/
structure SendResult where
  result : Bool
  queue : List QMsg
  reconnectTriggered : Bool
  sentNow : Bool
deriving Repr, DecidableEq

/-- `sendMessage(message, queueIfOffline = true)` from `src/websocket.js`
(lines 253-306): a non-object or type-less message returns `false`
untouched; with the socket not open the message is pushed onto the queue
(when `queueIfOffline`) with `_timestamp = now`, `_retryCount = 0`,
`attemptReconnection()` runs when `!connectionStatus.connected &&
reconnectAttempts === 0`, and `false` is returned; with the socket open a
successful `JSON.stringify` + `ws.send` returns `true`; if that throws,
the message is pushed onto the queue (when `queueIfOffline`) and `false`
is returned. -/
def sendMessageWS (st : SendState) (m : MsgInput) (now : Nat)
    (queueIfOffline : Bool) : SendResult :=
  if !m.isObject then
    { result := false, queue := st.queue, reconnectTriggered := false,
      sentNow := false }
  else if !m.hasType then
    { result := false, queue := st.queue, reconnectTriggered := false,
      sentNow := false }
  else if !st.wsOpen then
    { result := false,
      queue := if queueIfOffline then st.queue ++ [⟨m.mtype, now, 0⟩] else st.queue,
      reconnectTriggered := !st.connected && decide (st.reconnectAttempts = 0),
      sentNow := false }
  else if m.serializable then
    { result := true, queue := st.queue, reconnectTriggered := false,
      sentNow := true }
  else
    { result := false,
      queue := if queueIfOffline then st.queue ++ [⟨m.mtype, now, 0⟩] else st.queue,
      reconnectTriggered := false, sentNow := false }

/-- A well-formed `{type: "chat"}` message that serializes fine. -/
def wfChat : MsgInput := ⟨true, true, "chat", true⟩

/-- State with no socket, not connected, no reconnection in progress, empty
queue. -/
def offlineState : SendState := ⟨false, false, 0, []⟩

/-- A well-formed message whose payload cannot be serialized (for example a
cyclic object, on which `JSON.stringify` throws). -/
def cyclicMsg : MsgInput := ⟨true, true, "cyc", false⟩

/-- State with an open, connected socket and empty queue. -/
def openState : SendState := ⟨true, true, 0, []⟩

/-- Claim C6, as stated, is false for `src/websocket.js`: a well-formed
message sent while disconnected is successfully added to the outbound queue
yet `sendMessage` returns `false`, not `true`. -/
theorem C6_counterexample :
    (sendMessageWS offlineState wfChat 0 true).queue = [⟨"chat", 0, 0⟩] ∧
    (sendMessageWS offlineState wfChat 0 true).result = false ∧
    wfChat.isObject = true ∧ wfChat.hasType = true := by
  decide

/-- Claim C6 amended: `sendMessage` returns `true` exactly when the message
is well formed (an object with a `type`) and is handed to the open transport
without the send raising; a message that is merely queued (socket not open,
or the send raised) yields `false` even though it was queued. -/
theorem C6_amended (st : SendState) (m : MsgInput) (now : Nat)
    (queueIfOffline : Bool) :
    (sendMessageWS st m now queueIfOffline).result = true ↔
      (m.isObject = true ∧ m.hasType = true ∧ st.wsOpen = true ∧
        m.serializable = true) := by
  cases hobj : m.isObject <;> cases hty : m.hasType <;>
    cases hop : st.wsOpen <;> cases hser : m.serializable <;>
      simp [sendMessageWS, hobj, hty, hop, hser]

/-- Claim C7, as stated, is false for `src/websocket.js`: when the
serialization of a well-formed message raises during a send on an open
socket, `sendMessage` does report failure (`false`) — but the message IS
placed on the outbound queue, which changes from `[]` to one element. -/
theorem C7_counterexample :
    (sendMessageWS openState cyclicMsg 7 true).result = false ∧
    (sendMessageWS openState cyclicMsg 7 true).queue = [⟨"cyc", 7, 0⟩] ∧
    (sendMessageWS openState cyclicMsg 7 true).queue ≠ openState.queue := by
  decide

/-- Claim C7 amended: an encode failure is reported to the caller
immediately (`false` is returned), but with the default
`queueIfOffline = true` the message is appended to the outbound queue for
retry; the queue is left unchanged only when the caller passes
`queueIfOffline = false`. -/
theorem C7_amended (st : SendState) (m : MsgInput) (now : Nat)
    (hobj : m.isObject = true) (hty : m.hasType = true)
    (hopen : st.wsOpen = true) (henc : m.serializable = false) :
    (sendMessageWS st m now true).result = false ∧
    (sendMessageWS st m now true).queue = st.queue ++ [⟨m.mtype, now, 0⟩] ∧
    (sendMessageWS st m now false).queue = st.queue := by
  simp [sendMessageWS, hobj, hty, hopen, henc]

/-- Witness for `C7_amended` at the concrete open state and unserializable
message. -/
theorem C7_witness :
    (sendMessageWS openState cyclicMsg 7 true).result = false ∧
    (sendMessageWS openState cyclicMsg 7 true).queue =
      openState.queue ++ [⟨"cyc", 7, 0⟩] ∧
    (sendMessageWS openState cyclicMsg 7 false).queue = openState.queue :=
  C7_amended openState cyclicMsg 7 rfl rfl rfl rfl

/-- The module-level state read and written by `disconnect` in
`src/websocket.js` (lines 781-793): whether `ws` is non-null, the heartbeat
`pingInterval` handle, any pending `setTimeout` scheduled by
`attemptReconnection` (the code keeps no handle to it), the `connected`
flag, `reconnectAttempts` and the queue. -/
structure ConnState where
  wsExists : Bool
  pingTimer : Bool
  pendingReconnect : Bool
  connected : Bool
  reconnectAttempts : Nat
  queue : List QMsg
deriving Repr, DecidableEq

/-- `disconnect` from `src/websocket.js` (lines 781-793):
`stopPingInterval()`; if `ws` is non-null, `ws.close(1000, 'User initiated
disconnect')` (the transport then raises exactly one closed signal for that
socket) and `ws = null`; `connectionStatus.connected = false`;
`reconnectAttempts = 0`.  Nothing touches `messageQueue`, and no reconnect
timer is cancelled (none is ever stored).  Result: (state afterwards, the
normal-closure signals emitted). -/
def disconnectWS (st : ConnState) : ConnState × List (Nat × String) :=
  if st.wsExists then
    ({ st with wsExists := false, pingTimer := false, connected := false,
               reconnectAttempts := 0 },
     [(1000, "User initiated disconnect")])
  else
    ({ st with pingTimer := false, connected := false, reconnectAttempts := 0 },
     [])

/-- A state in which a reconnect timer is pending (scheduled by
`attemptReconnection` before the user disconnected), the heartbeat is
armed, and one message sits in the queue. -/
def preDisconnectState : ConnState :=
  { wsExists := true, pingTimer := true, pendingReconnect := true,
    connected := true, reconnectAttempts := 2, queue := [msgA] }

/-- Claim C8, as stated, is false for `src/websocket.js`: `disconnect()`
stores and cancels no reconnect timer, so a pending reconnect scheduled
before the call is still pending afterwards (and will fire
`initWebSocket`), where the claim requires it cancelled and no
reconnection attempt ever to follow. -/
theorem C8_counterexample :
    (disconnectWS preDisconnectState).1.pendingReconnect = true ∧
    (disconnectWS preDisconnectState).1.pendingReconnect ≠ false := by
  decide

/-- Claim C8 amended: `disconnect()` cancels the heartbeat timer, closes the
transport with the normal code 1000 (and that closure code never schedules a
reconnection), resets `reconnectAttempts` to 0 and leaves the queue's
contents unchanged; calling it twice produces exactly one normal-closure
signal and the second call does not change the state.  But it does not
cancel a pending reconnect timer: the `pendingReconnect` flag survives
untouched, so an attempt scheduled before the disconnect can still fire
afterwards. -/
theorem C8_amended (st : ConnState) :
    (disconnectWS st).1.pingTimer = false ∧
    (disconnectWS st).1.queue = st.queue ∧
    (disconnectWS st).1.pendingReconnect = st.pendingReconnect ∧
    (disconnectWS st).1.reconnectAttempts = 0 ∧
    (disconnectWS st).2 ++ (disconnectWS (disconnectWS st).1).2 =
      (if st.wsExists then [(1000, "User initiated disconnect")] else []) ∧
    disconnectWS (disconnectWS st).1 = ((disconnectWS st).1, []) ∧
    (∀ attempts : Nat, shouldReconnectWS 1000 attempts = false) := by
  cases st with
  | mk wsE pt pr c ra q =>
    cases wsE <;> simp [disconnectWS, shouldReconnectWS]

/-- `triggerEvent` from `src/websocket.js` (lines 547-557): the listeners
registered for the event are invoked in list order (registration order,
since `addEventListener` pushes); each invocation is wrapped in
`try { callback(data) } catch (error) { console.error(...) }`, so a raising
callback contributes a caught failure (`none`) and the loop continues.  A
callback is `α → Except String β`: `Except.error` models a raise, `β` the
observable effect of a successful run. -/
def triggerEventWS {α β : Type} (cbs : List (α → Except String β))
    (data : α) : List (Option β) :=
  cbs.map (fun cb =>
    match cb data with
    | Except.ok b => some b
    | Except.error _ => none)

/-- Claim C9 confirmed for `src/websocket.js`: with two or more subscribers
of which the first raises, dispatch still runs the second (and all later
ones); in general the i-th slot of the dispatch result is exactly the
outcome of invoking the i-th registered subscriber once on the event —
registration order, exactly one invocation each, failures caught and never
propagated (the dispatcher always returns a full list, one entry per
subscriber). -/
theorem C9_confirmed {α β : Type} (c1 c2 : α → Except String β)
    (rest : List (α → Except String β)) (data : α) (e : String)
    (hfail : c1 data = Except.error e) :
    triggerEventWS (c1 :: c2 :: rest) data =
      none :: (match c2 data with
        | Except.ok b => some b
        | Except.error _ => none) :: triggerEventWS rest data ∧
    ∀ (cbs : List (α → Except String β)) (i : Nat),
      (triggerEventWS cbs data).get? i =
        (cbs.get? i).map (fun cb =>
          match cb data with
          | Except.ok b => some b
          | Except.error _ => none) := by
  constructor
  · simp [triggerEventWS, hfail]
  · intro cbs i
    simp [triggerEventWS]

/-- A subscriber that always raises. -/
def cbBoom : Nat → Except String Nat := fun _ => Except.error "boom"

/-- A subscriber that succeeds, returning its input plus one. -/
def cbIncr : Nat → Except String Nat := fun n => Except.ok (n + 1)

/-- Witness for `C9_confirmed`: dispatching the event `4` to the raising
subscriber followed by the succeeding one yields a caught failure for the
first and the second subscriber's single delivery. -/
theorem C9_witness :
    triggerEventWS [cbBoom, cbIncr] 4 = [none, some 5] := by
  have h := C9_confirmed cbBoom cbIncr [] 4 "boom" rfl
  simpa [triggerEventWS, cbIncr] using h.1

/-- Claim C10 confirmed for `src/websocket.js`: a well-formed message sent
with no open socket is appended to the outbound queue, and
`attemptReconnection()` is triggered as a side effect exactly when
`reconnectAttempts = 0` (no reconnection already in progress). -/
theorem C10_confirmed (st : SendState) (m : MsgInput) (now : Nat)
    (hobj : m.isObject = true) (hty : m.hasType = true)
    (hopen : st.wsOpen = false) (hconn : st.connected = false) :
    (sendMessageWS st m now true).queue = st.queue ++ [⟨m.mtype, now, 0⟩] ∧
    ((sendMessageWS st m now true).reconnectTriggered = true ↔
      st.reconnectAttempts = 0) := by
  simp [sendMessageWS, hobj, hty, hopen, hconn]

/-- Witness for `C10_confirmed` at the concrete offline state and the
well-formed chat message. -/
theorem C10_witness :
    (sendMessageWS offlineState wfChat 3 true).queue =
      offlineState.queue ++ [⟨"chat", 3, 0⟩] ∧
    ((sendMessageWS offlineState wfChat 3 true).reconnectTriggered = true ↔
      offlineState.reconnectAttempts = 0) :=
  C10_confirmed offlineState wfChat 3 rfl rfl rfl rfl

/-- Witness for `C2_amended` at the concrete attempt number 3. -/
theorem C2_witness :
    p0ReconnectDelay 3 = min (1000 * 2 ^ 3) 30000 ∧
    p0ReconnectDelay 3 ≤ p0ReconnectDelay 4 ∧
    p0ReconnectDelay 3 ≤ 30000 ∧
    wsReconnectDelay 3 ≤ wsReconnectDelay 4 :=
  C2_amended 3

/-- Witness for `C6_amended` at the concrete open state and well-formed
message (where the send succeeds and the result is `true`). -/
theorem C6_witness :
    (sendMessageWS openState wfChat 1 true).result = true ↔
      (wfChat.isObject = true ∧ wfChat.hasType = true ∧
        openState.wsOpen = true ∧ wfChat.serializable = true) :=
  C6_amended openState wfChat 1 true

/-- Witness for `C8_amended` at the concrete pre-disconnect state. -/
theorem C8_witness :
    (disconnectWS preDisconnectState).1.pingTimer = false ∧
    (disconnectWS preDisconnectState).1.queue = preDisconnectState.queue ∧
    (disconnectWS preDisconnectState).1.pendingReconnect =
      preDisconnectState.pendingReconnect ∧
    (disconnectWS preDisconnectState).1.reconnectAttempts = 0 ∧
    (disconnectWS preDisconnectState).2 ++
        (disconnectWS (disconnectWS preDisconnectState).1).2 =
      (if preDisconnectState.wsExists then [(1000, "User initiated disconnect")]
        else []) ∧
    disconnectWS (disconnectWS preDisconnectState).1 =
      ((disconnectWS preDisconnectState).1, []) ∧
    (∀ attempts : Nat, shouldReconnectWS 1000 attempts = false) :=
  C8_amended preDisconnectState
